import Mathlib

/-!
Shallow embedding of the GRDNS request dispatcher and server lifecycle
(src/main.go) together with the message-library helpers the handler calls
(`Msg.SetReply`, `Msg.SetRcode` from the miekg/dns message library, embedded
from their well-known implementations, since the handler's observable
behaviour depends on them).

The Resolving Engine (`goresolver.Resolver.Query`) and the transport write
(`w.WriteMsg`) are external collaborators: they are modelled as oracles - a
resolver function `String → Nat → Except ResolverErr (Option Msg)` and a
per-request write result `Option String` (the error value `WriteMsg`
returns; the Go code performs exactly one write per request on every path,
so a single oracle value suffices). The handler's observable behaviour is
collected in a `HandlerOutput`: the messages handed to `WriteMsg` in order,
the log events emitted, and the `(name, type)` calls made to the Resolving
Engine.
-/

namespace GRDNS

/-- A resource record as the handler sees it: opaque data carried between the
resolver outcome and the reply (dns.RR is an interface; the handler never
inspects records). -/
structure RR where
  Name : String
  Rrtype : Nat
  Rdata : String
  deriving DecidableEq, Repr

/-- dns.Question: one entry of the question section. -/
structure Question where
  Name : String
  Qtype : Nat
  Qclass : Nat
  deriving DecidableEq, Repr

/-- dns.MsgHdr: the header fields read or written by the handler. -/
structure MsgHdr where
  Id : Nat
  Response : Bool
  Opcode : Nat
  RecursionDesired : Bool
  RecursionAvailable : Bool
  AuthenticatedData : Bool
  CheckingDisabled : Bool
  Rcode : Nat
  deriving DecidableEq, Repr

/-- dns.Msg: header, compression flag, and the four record sections. -/
structure Msg where
  MsgHdr : MsgHdr
  Compress : Bool
  Question : List Question
  Answer : List RR
  Ns : List RR
  Extra : List RR
  deriving DecidableEq, Repr

def RcodeSuccess : Nat := 0
def RcodeFormatError : Nat := 1
def RcodeServerFailure : Nat := 2
def RcodeNameError : Nat := 3

/-- Alias used at src/main.go line 69 for the DNSSEC branch; the server
failure response code. -/
def RcodeServFail : Nat := RcodeServerFailure

def OpcodeQuery : Nat := 0

/-- `new(dns.Msg)`: the zero value of the message type. -/
def newMsg : Msg :=
  { MsgHdr := { Id := 0, Response := false, Opcode := 0, RecursionDesired := false,
                RecursionAvailable := false, AuthenticatedData := false,
                CheckingDisabled := false, Rcode := 0 },
    Compress := false, Question := [], Answer := [], Ns := [], Extra := [] }

/-- `(*Msg).SetReply` from the message library: copy the transaction id,
mark the message a response, copy the opcode (and, for a standard query,
the recursion-desired and checking-disabled bits), reset the response code
to success, and - when the request has at least one question entry - set the
question section to exactly the request's FIRST question entry. -/
def Msg.SetReply (dns : Msg) (request : Msg) : Msg :=
  let hdr := { dns.MsgHdr with
    Id := request.MsgHdr.Id,
    Response := true,
    Opcode := request.MsgHdr.Opcode }
  let hdr :=
    if hdr.Opcode = OpcodeQuery then
      { hdr with RecursionDesired := request.MsgHdr.RecursionDesired,
                 CheckingDisabled := request.MsgHdr.CheckingDisabled }
    else hdr
  let hdr := { hdr with Rcode := RcodeSuccess }
  let question :=
    match request.Question with
    | q :: _ => [q]
    | [] => dns.Question
  { dns with MsgHdr := hdr, Question := question }

/-- `(*Msg).SetRcode` from the message library: `SetReply` followed by
overwriting the response code. -/
def Msg.SetRcode (dns : Msg) (request : Msg) (rcode : Nat) : Msg :=
  let m := dns.SetReply request
  { m with MsgHdr := { m.MsgHdr with Rcode := rcode } }

/-- The Resolving Engine's typed failures: the four sentinel errors of the
goresolver package, plus `other` for any error not equal to one of them
(the `default` arm of the handler's switch). -/
inductive ResolverErr where
  | ErrNoResult
  | ErrNoData
  | ErrInvalidQuery
  | ErrDNSSECValidationFailed
  | other
  deriving DecidableEq, Repr

/-- Observability events emitted by the handler (`log.Printf` calls). -/
inductive LogEvent where
  | queryReceived (qname : String) (qtype : Nat)
  | resolveError (qname : String)
  | writeError
  deriving DecidableEq, Repr

/-- Everything observable about one run of the handler: the messages handed
to `WriteMsg` (in order), the log events (in order), and the `(name, type)`
calls made to the Resolving Engine (in order). -/
structure HandlerOutput where
  writes : List Msg
  logs : List LogEvent
  engineCalls : List (String × Nat)
  deriving DecidableEq, Repr

/-- dns.Server: the fields the core sets when constructing a listener. -/
structure Server where
  Addr : String
  Net : String
  UDPSize : Nat
  deriving DecidableEq, Repr

/-- The DNSServer struct: the resolver reference and the (packet-oriented)
server handle stored by `Start`. -/
structure DNSServer where
  resolver : String → Nat → Except ResolverErr (Option Msg)
  server : Option Server

/-- `handleDNSRequest` (src/main.go lines 35-94). `wRes` is the error value
the transport write returns for this request (`none` = success). -/
def DNSServer.handleDNSRequest (s : DNSServer) (wRes : Option String)
    (r : Msg) : HandlerOutput :=
  -- lines 37-40: build the reply skeleton
  let reply := newMsg.SetReply r
  let reply := { reply with MsgHdr := { reply.MsgHdr with RecursionAvailable := true } }
  let reply := { reply with Compress := true }
  match r.Question with
  | [] =>
    -- lines 43-47: no questions - format error, write, return (write result ignored)
    let reply := reply.SetRcode r RcodeFormatError
    { writes := [reply], logs := [], engineCalls := [] }
  | question :: _ =>
    -- lines 50-54: first question, log the query
    let qname := question.Name
    let qtype := question.Qtype
    let logs := [LogEvent.queryReceived qname qtype]
    -- line 57: invoke the Resolving Engine
    match s.resolver qname qtype with
    | Except.error err =>
      -- lines 59-75: log, map the error to a response code, write, return
      -- (write result ignored on this path)
      let logs := logs ++ [LogEvent.resolveError qname]
      let reply :=
        match err with
        | ResolverErr.ErrNoResult | ResolverErr.ErrNoData =>
          reply.SetRcode r RcodeNameError
        | ResolverErr.ErrInvalidQuery =>
          reply.SetRcode r RcodeFormatError
        | ResolverErr.ErrDNSSECValidationFailed =>
          reply.SetRcode r RcodeServFail
        | ResolverErr.other =>
          reply.SetRcode r RcodeServerFailure
      { writes := [reply], logs := logs, engineCalls := [(qname, qtype)] }
    | Except.ok response =>
      -- lines 79-88: copy sections, rcode and DNSSEC flags when non-nil
      let reply :=
        match response with
        | some resp =>
          { reply with
            Answer := resp.Answer, Ns := resp.Ns, Extra := resp.Extra,
            MsgHdr := { reply.MsgHdr with
              Rcode := resp.MsgHdr.Rcode,
              AuthenticatedData := resp.MsgHdr.AuthenticatedData,
              CheckingDisabled := resp.MsgHdr.CheckingDisabled } }
        | none => reply
      -- lines 91-93: write; on failure log and return
      let logs :=
        match wRes with
        | some _ => logs ++ [LogEvent.writeError]
        | none => logs
      { writes := [reply], logs := logs, engineCalls := [(qname, qtype)] }

/-- `Start` (src/main.go lines 97-133): store the packet-oriented server
handle on the struct, create the stream-oriented server as a local value
(returned here so its identity stays observable), launch both in background
tasks, and return a nil error immediately. -/
def DNSServer.Start (s : DNSServer) (addr : String) :
    DNSServer × Server × Except String Unit :=
  let udpServer : Server := { Addr := addr, Net := "udp", UDPSize := 65535 }
  let tcpServer : Server := { Addr := addr, Net := "tcp", UDPSize := 0 }
  ({ s with server := some udpServer }, tcpServer, Except.ok ())

/-- The shutdown state of the two listeners: whether a shutdown call has been
issued to each. -/
structure ListenerWorld where
  udpShutdownCalled : Bool
  tcpShutdownCalled : Bool
  deriving DecidableEq, Repr

/-- `(*dns.Server).Shutdown`: mark the addressed listener as shut down and
return the library's result (`ret` is the oracle for that result). -/
def Server.Shutdown (srv : Server) (w : ListenerWorld) (ret : Option String) :
    ListenerWorld × Option String :=
  if srv.Net = "udp" then ({ w with udpShutdownCalled := true }, ret)
  else if srv.Net = "tcp" then ({ w with tcpShutdownCalled := true }, ret)
  else (w, ret)

/-- `Stop` (src/main.go lines 136-141): shut down the stored server handle
when present and return its result; otherwise return nil. -/
def DNSServer.Stop (s : DNSServer) (w : ListenerWorld) (ret : Option String) :
    ListenerWorld × Option String :=
  match s.server with
  | some srv => srv.Shutdown w ret
  | none => (w, none)

/-! Concrete inputs used by witnesses and counterexamples. -/

def stubResolver : String → Nat → Except ResolverErr (Option Msg) :=
  fun _ _ => Except.ok none

def stubServer : DNSServer := { resolver := stubResolver, server := none }

def stubServerStarted : DNSServer :=
  { resolver := stubResolver,
    server := some { Addr := ":5053", Net := "udp", UDPSize := 65535 } }

def errServer : DNSServer :=
  { resolver := fun _ _ => Except.error ResolverErr.ErrNoData, server := none }

def sampleHdr : MsgHdr :=
  { Id := 42, Response := false, Opcode := 0, RecursionDesired := true,
    RecursionAvailable := false, AuthenticatedData := false,
    CheckingDisabled := false, Rcode := 0 }

def respHdr : MsgHdr :=
  { Id := 0, Response := true, Opcode := 0, RecursionDesired := false,
    RecursionAvailable := false, AuthenticatedData := true,
    CheckingDisabled := false, Rcode := 0 }

def respMsg : Msg :=
  { MsgHdr := respHdr, Compress := false, Question := [],
    Answer := [{ Name := "example.test.", Rrtype := 1, Rdata := "192.0.2.1" }],
    Ns := [], Extra := [] }

def okServer : DNSServer :=
  { resolver := fun _ _ => Except.ok (some respMsg), server := none }

def q1 : Question := { Name := "example.test.", Qtype := 1, Qclass := 1 }

def q2 : Question := { Name := "second.test.", Qtype := 28, Qclass := 1 }

def sampleMsg : Msg :=
  { MsgHdr := sampleHdr, Compress := false, Question := [q1],
    Answer := [], Ns := [], Extra := [] }

def twoQuestionMsg : Msg :=
  { sampleMsg with Question := [q1, q2] }

def noQuestionMsg : Msg :=
  { sampleMsg with Question := [] }

/-- Claim C1: when the message has at least one question and the Resolving
Engine returns an error, the single written reply's response code follows
the error-mapping table (NoResult/NoData ↦ NameError, InvalidQuery ↦
FormatError, SecurityValidationFailed ↦ ServerFailure, anything else ↦
ServerFailure) and its answer, authority, and additional sections are
empty. -/
theorem C1_engine_error_mapping (s : DNSServer) (wRes : Option String) (r : Msg)
    (q : Question) (qs : List Question) (e : ResolverErr)
    (hq : r.Question = q :: qs)
    (he : s.resolver q.Name q.Qtype = Except.error e) :
    ∃ reply, (s.handleDNSRequest wRes r).writes = [reply] ∧
      reply.MsgHdr.Rcode =
        (match e with
         | ResolverErr.ErrNoResult | ResolverErr.ErrNoData => RcodeNameError
         | ResolverErr.ErrInvalidQuery => RcodeFormatError
         | ResolverErr.ErrDNSSECValidationFailed => RcodeServerFailure
         | ResolverErr.other => RcodeServerFailure) ∧
      reply.Answer = [] ∧ reply.Ns = [] ∧ reply.Extra = [] := by
  rcases e <;>
    simp [DNSServer.handleDNSRequest, hq, he, Msg.SetRcode, Msg.SetReply, newMsg,
      RcodeServFail]

/-- Witness for C1: a concrete `ErrNoData` outcome yields a NameError reply
with empty sections. -/
theorem C1_engine_error_mapping_witness :
    ∃ reply, (errServer.handleDNSRequest none sampleMsg).writes = [reply] ∧
      reply.MsgHdr.Rcode = RcodeNameError ∧
      reply.Answer = [] ∧ reply.Ns = [] ∧ reply.Extra = [] :=
  C1_engine_error_mapping errServer none sampleMsg q1 [] ResolverErr.ErrNoData rfl rfl

/-- Claim C2: a message with an empty question section gets a FormatError
reply with empty answer/authority/additional sections, and the Resolving
Engine is never invoked. -/
theorem C2_empty_question_format_error (s : DNSServer) (wRes : Option String)
    (r : Msg) (h : r.Question = []) :
    ∃ reply, (s.handleDNSRequest wRes r).writes = [reply] ∧
      reply.MsgHdr.Rcode = RcodeFormatError ∧
      reply.Answer = [] ∧ reply.Ns = [] ∧ reply.Extra = [] ∧
      (s.handleDNSRequest wRes r).engineCalls = [] := by
  simp [DNSServer.handleDNSRequest, h, Msg.SetRcode, Msg.SetReply, newMsg,
    RcodeFormatError]

/-- Witness for C2: a concrete zero-question message. -/
theorem C2_empty_question_format_error_witness :
    ∃ reply, (stubServer.handleDNSRequest none noQuestionMsg).writes = [reply] ∧
      reply.MsgHdr.Rcode = RcodeFormatError ∧
      reply.Answer = [] ∧ reply.Ns = [] ∧ reply.Extra = [] ∧
      (stubServer.handleDNSRequest none noQuestionMsg).engineCalls = [] :=
  C2_empty_question_format_error stubServer none noQuestionMsg rfl

/-- Claim C3: when the Resolving Engine succeeds with a (non-nil) outcome,
the written reply's answer, authority, and additional sections, its response
code, and its authenticated-data and checking-disabled flags equal those of
the outcome. -/
theorem C3_success_copies_outcome (s : DNSServer) (wRes : Option String) (r : Msg)
    (q : Question) (qs : List Question) (resp : Msg)
    (hq : r.Question = q :: qs)
    (he : s.resolver q.Name q.Qtype = Except.ok (some resp)) :
    ∃ reply, (s.handleDNSRequest wRes r).writes = [reply] ∧
      reply.Answer = resp.Answer ∧ reply.Ns = resp.Ns ∧ reply.Extra = resp.Extra ∧
      reply.MsgHdr.Rcode = resp.MsgHdr.Rcode ∧
      reply.MsgHdr.AuthenticatedData = resp.MsgHdr.AuthenticatedData ∧
      reply.MsgHdr.CheckingDisabled = resp.MsgHdr.CheckingDisabled := by
  simp [DNSServer.handleDNSRequest, hq, he, Msg.SetReply, newMsg]

/-- Witness for C3: a concrete successful outcome carrying one answer record
and the authenticated-data flag. -/
theorem C3_success_copies_outcome_witness :
    ∃ reply, (okServer.handleDNSRequest none sampleMsg).writes = [reply] ∧
      reply.Answer = respMsg.Answer ∧ reply.Ns = respMsg.Ns ∧
      reply.Extra = respMsg.Extra ∧
      reply.MsgHdr.Rcode = respMsg.MsgHdr.Rcode ∧
      reply.MsgHdr.AuthenticatedData = respMsg.MsgHdr.AuthenticatedData ∧
      reply.MsgHdr.CheckingDisabled = respMsg.MsgHdr.CheckingDisabled :=
  C3_success_copies_outcome okServer none sampleMsg q1 [] respMsg rfl rfl

/-- Claim C4: on every path (zero questions, any engine error, success with
nil or non-nil outcome) every message the handler writes has the
recursion-available bit set and compression enabled. -/
theorem C4_recursion_available_and_compress (s : DNSServer) (wRes : Option String)
    (r : Msg) :
    ((s.handleDNSRequest wRes r).writes.all
      (fun m => m.MsgHdr.RecursionAvailable && m.Compress)) = true := by
  rcases r with ⟨hdr, comp, _ | ⟨q, qs⟩, ans, ns, ex⟩
  · simp [DNSServer.handleDNSRequest, Msg.SetRcode, Msg.SetReply, newMsg, apply_ite]
  · rcases he : s.resolver q.Name q.Qtype with e | resp
    · rcases e <;>
        simp [DNSServer.handleDNSRequest, he, Msg.SetRcode, Msg.SetReply, newMsg,
          apply_ite]
    · rcases resp with _ | resp <;>
        simp [DNSServer.handleDNSRequest, he, Msg.SetReply, newMsg, apply_ite]

/-- Claim C5, counterexample: for an inbound message with two question
entries, the written reply's question section is NOT the inbound question
section (the library's reply constructor keeps only the first entry). -/
theorem C5_question_section_counterexample :
    ((stubServer.handleDNSRequest none twoQuestionMsg).writes.map Msg.Question) ≠
      [twoQuestionMsg.Question] := by decide

/-- Claim C5 as amended: every reply the handler writes carries the inbound
message's transaction identifier, and its question section is the first
question entry of the inbound message (so it equals the inbound question
section exactly when that section has at most one entry). -/
theorem C5_id_and_first_question (s : DNSServer) (wRes : Option String) (r : Msg) :
    ((s.handleDNSRequest wRes r).writes.all
      (fun m => (m.MsgHdr.Id == r.MsgHdr.Id) &&
        (m.Question == r.Question.take 1))) = true := by
  rcases r with ⟨hdr, comp, _ | ⟨q, qs⟩, ans, ns, ex⟩
  · simp [DNSServer.handleDNSRequest, Msg.SetRcode, Msg.SetReply, newMsg, apply_ite]
  · rcases he : s.resolver q.Name q.Qtype with e | resp
    · rcases e <;>
        simp [DNSServer.handleDNSRequest, he, Msg.SetRcode, Msg.SetReply, newMsg,
          apply_ite]
    · rcases resp with _ | resp <;>
        simp [DNSServer.handleDNSRequest, he, Msg.SetReply, newMsg, apply_ite]

/-- Claim C6: two inbound messages that agree on everything except question
entries after the first produce identical handler outputs, and the Resolving
Engine is invoked exactly once with the first entry's (name, type) pair. -/
theorem C6_tail_questions_ignored (s : DNSServer) (wRes : Option String)
    (hdr : MsgHdr) (comp : Bool) (q : Question) (qs1 qs2 : List Question)
    (ans ns ex : List RR) :
    s.handleDNSRequest wRes ⟨hdr, comp, q :: qs1, ans, ns, ex⟩ =
      s.handleDNSRequest wRes ⟨hdr, comp, q :: qs2, ans, ns, ex⟩ ∧
    (s.handleDNSRequest wRes ⟨hdr, comp, q :: qs1, ans, ns, ex⟩).engineCalls =
      [(q.Name, q.Qtype)] := by
  constructor
  · rfl
  · rcases he : s.resolver q.Name q.Qtype with e | resp <;>
      simp [DNSServer.handleDNSRequest, he]

/-- Claim C7: the handler is deterministic - two servers whose resolvers
return the same outcome on every input produce the same output for the same
inbound message and write result. -/
theorem C7_handler_deterministic (s1 s2 : DNSServer) (wRes : Option String)
    (r : Msg) (h : ∀ n t, s1.resolver n t = s2.resolver n t) :
    s1.handleDNSRequest wRes r = s2.handleDNSRequest wRes r := by
  rcases s1 with ⟨res1, srv1⟩
  rcases s2 with ⟨res2, srv2⟩
  have hres : res1 = res2 := funext fun n => funext fun t => h n t
  subst hres
  rfl

/-- Witness for C7: two concrete servers with the same resolver stub (and
different stored listener handles) give the same reply for a concrete
query. -/
theorem C7_handler_deterministic_witness :
    stubServer.handleDNSRequest none sampleMsg =
      stubServerStarted.handleDNSRequest none sampleMsg :=
  C7_handler_deterministic stubServer stubServerStarted none sampleMsg
    (fun _ _ => rfl)

/-- Claim C8: after `Start`, `Stop` issues a shutdown to the packet-oriented
(UDP) listener and returns that shutdown's result, while the stream-oriented
(TCP) listener's shutdown state is left unchanged. -/
theorem C8_stop_udp_only (s0 : DNSServer) (addr : String) (w : ListenerWorld)
    (ret : Option String) :
    (((s0.Start addr).1).Stop w ret).1.udpShutdownCalled = true ∧
    (((s0.Start addr).1).Stop w ret).1.tcpShutdownCalled = w.tcpShutdownCalled ∧
    (((s0.Start addr).1).Stop w ret).2 = ret := by
  refine ⟨rfl, rfl, rfl⟩

/-- Claim C9, counterexample: for a zero-question inbound message whose
reply write fails, the handler writes the reply and returns but records NO
observability event for the failure (the write result is discarded on that
path), contradicting the claim's "for every inbound message". -/
theorem C9_write_failure_not_logged_counterexample :
    (stubServer.handleDNSRequest (some "write failed") noQuestionMsg).writes.length
        = 1 ∧
    LogEvent.writeError ∉
      (stubServer.handleDNSRequest (some "write failed") noQuestionMsg).logs := by
  decide

/-- Claim C9 as amended: on every path the handler attempts exactly one
write (never a retry) and returns normally; a write failure is recorded as
an observability event on the success path (at least one question and the
engine returned without error), and ONLY there: the zero-question path and
the engine-error path never record a write-failure event, whatever the
write result. -/
theorem C9_single_write_success_path_logging (s : DNSServer)
    (wRes : Option String) (r : Msg) :
    (s.handleDNSRequest wRes r).writes.length = 1 ∧
    (∀ q qs res e', r.Question = q :: qs →
      s.resolver q.Name q.Qtype = Except.ok res → wRes = some e' →
      LogEvent.writeError ∈ (s.handleDNSRequest wRes r).logs) ∧
    (r.Question = [] →
      LogEvent.writeError ∉ (s.handleDNSRequest wRes r).logs) ∧
    (∀ q qs e, r.Question = q :: qs →
      s.resolver q.Name q.Qtype = Except.error e →
      LogEvent.writeError ∉ (s.handleDNSRequest wRes r).logs) := by
  refine ⟨?_, ?_, ?_, ?_⟩
  · rcases r with ⟨hdr, comp, _ | ⟨q, qs⟩, ans, ns, ex⟩
    · simp [DNSServer.handleDNSRequest]
    · rcases he : s.resolver q.Name q.Qtype with e | resp <;>
        simp [DNSServer.handleDNSRequest, he]
  · intro q qs res e' hq he hw
    simp [DNSServer.handleDNSRequest, hq, he, hw]
  · intro hq
    simp [DNSServer.handleDNSRequest, hq]
  · intro q qs e hq he
    simp [DNSServer.handleDNSRequest, hq, he]

/-- Witness for C9 (amended): with a failing write, a concrete success-path
run attempts exactly one write and records the write-failure event, while a
concrete zero-question run and a concrete engine-error run record none. -/
theorem C9_single_write_success_path_logging_witness :
    ((stubServer.handleDNSRequest (some "boom") sampleMsg).writes.length = 1 ∧
     LogEvent.writeError ∈
       (stubServer.handleDNSRequest (some "boom") sampleMsg).logs) ∧
    LogEvent.writeError ∉
      (stubServer.handleDNSRequest (some "boom") noQuestionMsg).logs ∧
    LogEvent.writeError ∉
      (errServer.handleDNSRequest (some "boom") sampleMsg).logs :=
  ⟨⟨(C9_single_write_success_path_logging stubServer (some "boom") sampleMsg).1,
    (C9_single_write_success_path_logging stubServer (some "boom") sampleMsg).2.1
      q1 [] none "boom" rfl rfl rfl⟩,
   (C9_single_write_success_path_logging stubServer (some "boom")
     noQuestionMsg).2.2.1 rfl,
   (C9_single_write_success_path_logging errServer (some "boom") sampleMsg).2.2.2
     q1 [] ResolverErr.ErrNoData rfl rfl⟩

/-- Claim C10: when the Resolving Engine returns no error but a nil outcome,
the handler still writes exactly one reply, whose response code is the
success code set at reply construction, whose answer/authority/additional
sections are empty, and whose recursion-available bit is set. -/
theorem C10_nil_outcome_safe (s : DNSServer) (wRes : Option String) (r : Msg)
    (q : Question) (qs : List Question)
    (hq : r.Question = q :: qs)
    (he : s.resolver q.Name q.Qtype = Except.ok none) :
    ∃ reply, (s.handleDNSRequest wRes r).writes = [reply] ∧
      reply.MsgHdr.Rcode = RcodeSuccess ∧
      reply.Answer = [] ∧ reply.Ns = [] ∧ reply.Extra = [] ∧
      reply.MsgHdr.RecursionAvailable = true := by
  simp [DNSServer.handleDNSRequest, hq, he, Msg.SetReply, newMsg, RcodeSuccess,
    apply_ite]

/-- Witness for C10: a concrete nil-outcome success. -/
theorem C10_nil_outcome_safe_witness :
    ∃ reply, (stubServer.handleDNSRequest none sampleMsg).writes = [reply] ∧
      reply.MsgHdr.Rcode = RcodeSuccess ∧
      reply.Answer = [] ∧ reply.Ns = [] ∧ reply.Extra = [] ∧
      reply.MsgHdr.RecursionAvailable = true :=
  C10_nil_outcome_safe stubServer none sampleMsg q1 [] rfl rfl

end GRDNS
